import Mathlib

/-!
# Verification of the execution-result aggregation and typed-decoding layer

Shallow embedding of `src/workspaces/src/result.rs` (near/sandbox-api).
Bytes are modelled as `Nat` (values `< 256` where relevant), `u64`/`u128`
quantities as `Nat`, Rust `String` as Lean `String`, and fallible Rust
functions as `Except`.  A Rust `unreachable!()` panic is modelled by the
`PanicOr.panicked` constructor.  External deserializer crates
(`serde_json`, `borsh`) are modelled as parser parameters, mirroring the
genericity of the Rust methods over the target type `T`.
-/

deriving instance DecidableEq for Except

namespace SandboxApi

/-- `Gas` from `crate::types`: an unsigned 64-bit quantity, modelled as `Nat`. -/
abbrev Gas := Nat

/-- `Balance` from `crate::types`: an unsigned 128-bit quantity, modelled as `Nat`. -/
abbrev Balance := Nat

/-- `CryptoHash` from `crate::types`: a 32-byte hash, modelled as its byte list. -/
structure CryptoHash where
  bytes : List Nat
deriving DecidableEq, Repr

/-- `AccountId` from `near_account_id`: opaque to this layer, modelled as a string. -/
structure AccountId where
  name : String
deriving DecidableEq, Repr

/-- `TxExecutionError` from `near_primitives::errors`: the structured on-chain
execution error.  This layer never inspects it, so it is modelled as an opaque
wrapper around its rendering. -/
structure TxExecutionError where
  repr : String
deriving DecidableEq, Repr

/-- `ExecutionStatusView` from `near_primitives::views`: per-outcome status.
`successValue` carries raw bytes. -/
inductive ExecutionStatusView where
  | unknown : ExecutionStatusView
  | failure (err : TxExecutionError) : ExecutionStatusView
  | successValue (value : List Nat) : ExecutionStatusView
  | successReceiptId (hash : CryptoHash) : ExecutionStatusView
deriving DecidableEq, Repr

/-- `FinalExecutionStatus` from `near_primitives::views`: top-level status of a
whole transaction submission.  `notStarted`/`started` are the non-terminal
(pending) variants. -/
inductive FinalExecutionStatus where
  | notStarted : FinalExecutionStatus
  | started : FinalExecutionStatus
  | failure (err : TxExecutionError) : FinalExecutionStatus
  | successValue (value : List Nat) : FinalExecutionStatus
deriving DecidableEq, Repr

/-- `ErrorKind` from `crate::error`.
Modelled from the spec: the module `workspaces/src/error.rs` is not among the
sources; section 7 of the spec lists the error kinds used by this layer
(`Execution` and `DataConversion`). -/
inductive ErrorKind where
  | execution : ErrorKind
  | dataConversion : ErrorKind
deriving DecidableEq, Repr

/-- Payload attached to an error: either a rendered message (`.custom(e)` on a
displayable error / `.message(s)`) or the structured on-chain execution error. -/
inductive ErrorDetail where
  | msg (s : String) : ErrorDetail
  | txe (e : TxExecutionError) : ErrorDetail
deriving DecidableEq, Repr

/-- `crate::error::Error`.
Modelled from the spec: an error of a given kind carrying either a message or
the structured execution error value. -/
structure WsError where
  kind : ErrorKind
  detail : ErrorDetail
deriving DecidableEq, Repr

/-- `ErrorKind::custom` from `crate::error`.
Modelled from the spec: wraps a payload in an error of the given kind. -/
def ErrorKind.custom (k : ErrorKind) (d : ErrorDetail) : WsError := ⟨k, d⟩

/-- `ErrorKind::message` from `crate::error`.
Modelled from the spec: wraps a plain message in an error of the given kind. -/
def ErrorKind.message (k : ErrorKind) (s : String) : WsError := ⟨k, .msg s⟩

/-! ## The base64 engine (`base64::engine::general_purpose::STANDARD`)

RFC 4648 standard alphabet, canonical `=` padding, no line wrapping.  Encoding
consumes bytes three at a time; decoding consumes characters four at a time,
rejecting non-alphabet characters, padding that is not final, non-canonical
lengths, and set trailing bits. -/

/-- The 64-character standard alphabet, as a list of characters. -/
def b64Alphabet : List Char :=
  ['A', 'B', 'C', 'D', 'E', 'F', 'G', 'H', 'I', 'J', 'K', 'L', 'M',
   'N', 'O', 'P', 'Q', 'R', 'S', 'T', 'U', 'V', 'W', 'X', 'Y', 'Z',
   'a', 'b', 'c', 'd', 'e', 'f', 'g', 'h', 'i', 'j', 'k', 'l', 'm',
   'n', 'o', 'p', 'q', 'r', 's', 't', 'u', 'v', 'w', 'x', 'y', 'z',
   '0', '1', '2', '3', '4', '5', '6', '7', '8', '9', '+', '/']

/-- Character for a six-bit value (values `≥ 64` never arise). -/
def sextetChar (n : Nat) : Char := b64Alphabet.getD n '?'

/-- Index of a character in the standard alphabet, `none` for non-alphabet
characters (including `=`). -/
def b64CharVal (c : Char) : Option Nat :=
  match b64Alphabet.indexOf? c with
  | some i => some i
  | none => none

/-- Base64-encode a byte list into characters, three bytes to four characters,
padding the final one- or two-byte group with `=`. -/
def b64EncodeChars : List Nat → List Char
  | [] => []
  | [a] => [sextetChar (a / 4), sextetChar (a % 4 * 16), '=', '=']
  | [a, b] => [sextetChar (a / 4), sextetChar (a % 4 * 16 + b / 16),
               sextetChar (b % 16 * 4), '=']
  | a :: b :: c :: rest =>
      sextetChar (a / 4) :: sextetChar (a % 4 * 16 + b / 16) ::
      sextetChar (b % 16 * 4 + c / 64) :: sextetChar (c % 64) ::
      b64EncodeChars rest

/-- `STANDARD.encode`: base64-encode a byte list into a string. -/
def b64Encode (bytes : List Nat) : String := ⟨b64EncodeChars bytes⟩

/-- `STANDARD.decode`: base64-decode a character list back into bytes.
Rejects non-canonical input (wrong length, invalid characters, padding before
the end, set trailing bits), mirroring the strict standard engine. -/
def b64DecodeChars : List Char → Except String (List Nat)
  | [] => .ok []
  | c1 :: c2 :: c3 :: c4 :: rest =>
    match b64CharVal c1, b64CharVal c2 with
    | some s1, some s2 =>
      if c3 = '=' ∧ c4 = '=' then
        if rest = [] then
          if s2 % 16 = 0 then .ok [s1 * 4 + s2 / 16]
          else .error "InvalidLastSymbol"
        else .error "InvalidByte"
      else if c4 = '=' then
        match b64CharVal c3 with
        | some s3 =>
          if rest = [] then
            if s3 % 4 = 0 then .ok [s1 * 4 + s2 / 16, s2 % 16 * 16 + s3 / 4]
            else .error "InvalidLastSymbol"
          else .error "InvalidByte"
        | none => .error "InvalidByte"
      else
        match b64CharVal c3, b64CharVal c4 with
        | some s3, some s4 =>
          match b64DecodeChars rest with
          | .ok tail =>
              .ok ((s1 * 4 + s2 / 16) :: (s2 % 16 * 16 + s3 / 4) ::
                   (s3 % 4 * 64 + s4) :: tail)
          | .error e => .error e
        | _, _ => .error "InvalidByte"
    | _, _ => .error "InvalidByte"
  | _ => .error "InvalidLength"

/-! ## Outcomes and their aggregate (`ExecutionOutcome`, `ExecutionDetails`) -/

/-- `ExecutionOutcome`: result metadata of one execution step (the transaction
itself or one receipt it generated). -/
structure ExecutionOutcome where
  transaction_hash : CryptoHash
  block_hash : CryptoHash
  logs : List String
  receipt_ids : List CryptoHash
  gas_burnt : Gas
  tokens_burnt : Balance
  executor_id : AccountId
  status : ExecutionStatusView
deriving DecidableEq, Repr

/-- `ExecutionOutcome::is_success`: true for `SuccessValue` or `SuccessReceiptId`. -/
def ExecutionOutcome.is_success (o : ExecutionOutcome) : Bool :=
  match o.status with
  | .successValue _ => true
  | .successReceiptId _ => true
  | _ => false

/-- `ExecutionOutcome::is_failure`: true for `Failure` or `Unknown`. -/
def ExecutionOutcome.is_failure (o : ExecutionOutcome) : Bool :=
  match o.status with
  | .failure _ => true
  | .unknown => true
  | _ => false

/-- The `matches!(status, ExecutionStatusView::Failure(_))` test used by
`ExecutionDetails::failures` and `ExecutionDetails::receipt_failures`. -/
def statusIsFailureVariant : ExecutionStatusView → Bool
  | .failure _ => true
  | _ => false

/-- `ExecutionDetails`: one transaction outcome plus the ordered outcomes of
the receipts it generated. -/
structure ExecutionDetails where
  transaction : ExecutionOutcome
  receipts : List ExecutionOutcome
deriving DecidableEq, Repr

namespace ExecutionDetails

/-- `ExecutionDetails::outcome`: just the transaction outcome. -/
def outcome (d : ExecutionDetails) : ExecutionOutcome := d.transaction

/-- `ExecutionDetails::receipt_outcomes`: receipts only, original order. -/
def receipt_outcomes (d : ExecutionDetails) : List ExecutionOutcome := d.receipts

/-- `ExecutionDetails::outcomes`: the transaction outcome followed by all
receipt outcomes. -/
def outcomes (d : ExecutionDetails) : List ExecutionOutcome :=
  [d.transaction] ++ d.receipt_outcomes

/-- `ExecutionDetails::receipt_failures`: receipts whose status matches
`Failure(_)`. -/
def receipt_failures (d : ExecutionDetails) : List ExecutionOutcome :=
  d.receipts.filter fun receipt => statusIsFailureVariant receipt.status

/-- `ExecutionDetails::failures`: the transaction outcome when its status
matches `Failure(_)`, followed by the failed receipt outcomes. -/
def failures (d : ExecutionDetails) : List ExecutionOutcome :=
  (if statusIsFailureVariant d.transaction.status then [d.transaction] else [])
    ++ d.receipt_failures

/-- `ExecutionDetails::logs`: all log lines of all outcomes, in outcome order. -/
def logs (d : ExecutionDetails) : List String :=
  d.outcomes.flatMap fun o => o.logs

end ExecutionDetails

/-! ## Opaque values (`Value`) and their decoding -/

/-- `Value`: a caller-opaque payload stored as its base64 re-encoding. -/
structure Value where
  repr : String
deriving DecidableEq, Repr

/-- `Value::from_string`. -/
def Value.from_string (value : String) : Value := ⟨value⟩

/-- `Value::raw_bytes`: decode the stored base64 text back into the original
bytes; a decode error surfaces as a `DataConversion` error. -/
def Value.raw_bytes (v : Value) : Except WsError (List Nat) :=
  match b64DecodeChars v.repr.data with
  | .ok bytes => .ok bytes
  | .error e => .error (ErrorKind.dataConversion.custom (.msg e))

/-- `Value::json`: raw bytes fed to the JSON deserializer of the target type
(`serde_json::from_slice`, modelled as the parser parameter); a parse error
surfaces as a `DataConversion` error. -/
def Value.json {α : Type} (parse : List Nat → Except String α) (v : Value) :
    Except WsError α :=
  match v.raw_bytes with
  | .error e => .error e
  | .ok buf =>
    match parse buf with
    | .ok t => .ok t
    | .error e => .error (ErrorKind.dataConversion.custom (.msg e))

/-- `Value::borsh`: raw bytes fed to the borsh deserializer of the target type
(`borsh::BorshDeserialize::try_from_slice`, modelled as the parser parameter);
a parse error surfaces as a `DataConversion` error. -/
def Value.borsh {α : Type} (parse : List Nat → Except String α) (v : Value) :
    Except WsError α :=
  match v.raw_bytes with
  | .error e => .error e
  | .ok buf =>
    match parse buf with
    | .ok t => .ok t
    | .error e => .error (ErrorKind.dataConversion.custom (.msg e))

/-- `ValueOrReceiptId`: value or forwarded receipt id of a successful outcome. -/
inductive ValueOrReceiptId where
  | value (v : Value) : ValueOrReceiptId
  | receiptId (h : CryptoHash) : ValueOrReceiptId
deriving DecidableEq, Repr

/-- `ExecutionOutcome::into_result`: success value (base64 re-encoded into a
`Value`) or forwarded receipt id; `Failure` carries the structured error as an
`Execution` error, `Unknown` becomes an `Execution` message error. -/
def ExecutionOutcome.into_result (o : ExecutionOutcome) :
    Except WsError ValueOrReceiptId :=
  match o.status with
  | .successValue value =>
      .ok (.value (Value.from_string (b64Encode value)))
  | .successReceiptId hash => .ok (.receiptId hash)
  | .failure err => .error (ErrorKind.execution.custom (.txe err))
  | .unknown => .error (ErrorKind.execution.message "Execution pending or unknown")

/-! ## Execution results (`ExecutionResult`, `ExecutionFinalResult`) -/

/-- `ExecutionResult<T>`: total gas burnt, the payload (a `Value` for success,
a `TxExecutionError` for failure), and the outcome aggregate. -/
structure ExecutionResult (T : Type) where
  total_gas_burnt : Gas
  value : T
  details : ExecutionDetails
deriving DecidableEq, Repr

/-- `ExecutionSuccess = ExecutionResult<Value>`. -/
abbrev ExecutionSuccess := ExecutionResult Value

/-- `ExecutionFailure = ExecutionResult<TxExecutionError>`. -/
abbrev ExecutionFailure := ExecutionResult TxExecutionError

/-- `ExecutionSuccess::json`: decode the stored success `Value`. -/
def ExecutionSuccess.json {α : Type} (parse : List Nat → Except String α)
    (s : ExecutionSuccess) : Except WsError α :=
  s.value.json parse

/-- `ExecutionSuccess::borsh`: decode the stored success `Value`. -/
def ExecutionSuccess.borsh {α : Type} (parse : List Nat → Except String α)
    (s : ExecutionSuccess) : Except WsError α :=
  s.value.borsh parse

/-- `ExecutionSuccess::raw_bytes`: raw bytes of the stored success `Value`. -/
def ExecutionSuccess.raw_bytes (s : ExecutionSuccess) : Except WsError (List Nat) :=
  s.value.raw_bytes

/-- Result of a Rust computation that may hit a `panic` (here: the
`unreachable!()` arm of `ExecutionFinalResult::into_result`). -/
inductive PanicOr (α : Type) where
  | panicked : PanicOr α
  | ret (a : α) : PanicOr α
deriving DecidableEq, Repr

/-- `ExecutionFinalResult`: total gas burnt, the top-level status and the
outcome aggregate. -/
structure ExecutionFinalResult where
  total_gas_burnt : Gas
  status : FinalExecutionStatus
  details : ExecutionDetails
deriving DecidableEq, Repr

/-- The conversion applied by the try operator in
`ExecutionFinalResult::json/borsh/raw_bytes` to an `ExecutionFailure`.
Modelled from the spec: the crate error module is not among the sources; per
the spec the propagated error is an `Execution`-kind error carrying the
structured on-chain error value. -/
def wsErrorOfFailure (f : ExecutionFailure) : WsError :=
  ErrorKind.execution.custom (.txe f.value)

namespace ExecutionFinalResult

/-- `ExecutionFinalResult::into_result`: branch on the top-level status alone.
`SuccessValue` re-encodes the payload bytes into a base64 `Value`; `Failure`
carries the structured error; any other status hits `unreachable!()`. -/
def into_result (r : ExecutionFinalResult) :
    PanicOr (Except ExecutionFailure ExecutionSuccess) :=
  match r.status with
  | .successValue value =>
      .ret (.ok { total_gas_burnt := r.total_gas_burnt
                  value := Value.from_string (b64Encode value)
                  details := r.details })
  | .failure tx_error =>
      .ret (.error { total_gas_burnt := r.total_gas_burnt
                     value := tx_error
                     details := r.details })
  | _ => .panicked

/-- The distinguished message for an empty payload that fails JSON decoding. -/
def emptyJsonMsg : String :=
  "the function call returned an empty value, which cannot be parsed as JSON"

/-- `ExecutionFinalResult::json`: classify, propagate a failure via the try
operator, decode the success value; a `DataConversion` error on an empty
stored payload is replaced by the distinguished empty-value error. -/
def json {α : Type} (parse : List Nat → Except String α)
    (r : ExecutionFinalResult) : PanicOr (Except WsError α) :=
  match r.into_result with
  | .panicked => .panicked
  | .ret (.error f) => .ret (.error (wsErrorOfFailure f))
  | .ret (.ok val) =>
    match val.json parse with
    | .error err =>
        if err.kind = ErrorKind.dataConversion ∧ val.value.repr.data = [] then
          .ret (.error (ErrorKind.dataConversion.custom (.msg emptyJsonMsg)))
        else
          .ret (.error err)
    | .ok t => .ret (.ok t)

/-- `ExecutionFinalResult::borsh`: classify, propagate a failure via the try
operator, decode the success value. -/
def borsh {α : Type} (parse : List Nat → Except String α)
    (r : ExecutionFinalResult) : PanicOr (Except WsError α) :=
  match r.into_result with
  | .panicked => .panicked
  | .ret (.error f) => .ret (.error (wsErrorOfFailure f))
  | .ret (.ok val) => .ret (val.borsh parse)

/-- `ExecutionFinalResult::raw_bytes`: classify, propagate a failure via the
try operator, return the raw bytes of the success value. -/
def raw_bytes (r : ExecutionFinalResult) : PanicOr (Except WsError (List Nat)) :=
  match r.into_result with
  | .panicked => .panicked
  | .ret (.error f) => .ret (.error (wsErrorOfFailure f))
  | .ret (.ok val) => .ret val.raw_bytes

/-- `ExecutionFinalResult::is_success`: the top-level status matches
`SuccessValue(_)`. -/
def is_success (r : ExecutionFinalResult) : Bool :=
  match r.status with
  | .successValue _ => true
  | _ => false

/-- `ExecutionFinalResult::is_failure`: the top-level status matches
`Failure(_)`. -/
def is_failure (r : ExecutionFinalResult) : Bool :=
  match r.status with
  | .failure _ => true
  | _ => false

/-- `ExecutionFinalResult::outcome`. -/
def outcome (r : ExecutionFinalResult) : ExecutionOutcome := r.details.outcome

/-- `ExecutionFinalResult::outcomes`. -/
def outcomes (r : ExecutionFinalResult) : List ExecutionOutcome := r.details.outcomes

/-- `ExecutionFinalResult::receipt_outcomes`. -/
def receipt_outcomes (r : ExecutionFinalResult) : List ExecutionOutcome :=
  r.details.receipt_outcomes

/-- `ExecutionFinalResult::failures`. -/
def failures (r : ExecutionFinalResult) : List ExecutionOutcome := r.details.failures

/-- `ExecutionFinalResult::receipt_failures`. -/
def receipt_failures (r : ExecutionFinalResult) : List ExecutionOutcome :=
  r.details.receipt_failures

/-- `ExecutionFinalResult::logs`. -/
def logs (r : ExecutionFinalResult) : List String := r.details.logs

end ExecutionFinalResult

/-! ## Protocol views (`near_primitives::views`) and construction -/

/-- The per-outcome part of `ExecutionOutcomeWithIdView` (the fields this
layer copies out of `view.outcome`). -/
structure ExecutionOutcomeView where
  logs : List String
  receipt_ids : List CryptoHash
  gas_burnt : Gas
  tokens_burnt : Balance
  executor_id : AccountId
  status : ExecutionStatusView
deriving DecidableEq, Repr

/-- `ExecutionOutcomeWithIdView`: identifier, block hash and the outcome body. -/
structure ExecutionOutcomeWithIdView where
  id : CryptoHash
  block_hash : CryptoHash
  outcome : ExecutionOutcomeView
deriving DecidableEq, Repr

/-- `From<ExecutionOutcomeWithIdView> for ExecutionOutcome`: one-to-one field
copy from the protocol view. -/
def ExecutionOutcome.from_view (view : ExecutionOutcomeWithIdView) : ExecutionOutcome :=
  { transaction_hash := view.id
    block_hash := view.block_hash
    logs := view.outcome.logs
    receipt_ids := view.outcome.receipt_ids
    gas_burnt := view.outcome.gas_burnt
    tokens_burnt := view.outcome.tokens_burnt
    executor_id := view.outcome.executor_id
    status := view.outcome.status }

/-- `FinalExecutionOutcomeView`: top-level status, the transaction outcome
view and the ordered receipt outcome views (the fields this layer consumes). -/
structure FinalExecutionOutcomeView where
  status : FinalExecutionStatus
  transaction_outcome : ExecutionOutcomeWithIdView
  receipts_outcome : List ExecutionOutcomeWithIdView
deriving DecidableEq, Repr

/-- `ExecutionFinalResult::from_view`: total gas burnt is the transaction gas
plus the sum over receipts, in unsigned 64-bit arithmetic (modelled as `Nat`
reduced modulo `2 ^ 64`); outcomes are converted one-to-one. -/
def ExecutionFinalResult.from_view (view : FinalExecutionOutcomeView) :
    ExecutionFinalResult :=
  { total_gas_burnt :=
      (view.transaction_outcome.outcome.gas_burnt
        + ((view.receipts_outcome.map fun t => t.outcome.gas_burnt).sum)) % 2 ^ 64
    status := view.status
    details :=
      { transaction := ExecutionOutcome.from_view view.transaction_outcome
        receipts := view.receipts_outcome.map ExecutionOutcome.from_view } }

/-! ## View-call results (`ViewResultDetails`) -/

/-- `ViewResultDetails`: raw result bytes and logs of a read-only view call. -/
structure ViewResultDetails where
  result : List Nat
  logs : List String
deriving DecidableEq, Repr

/-- `ViewResultDetails::json`: the stored raw bytes fed directly to the JSON
deserializer of the target type; no binary-to-text layer in between. -/
def ViewResultDetails.json {α : Type} (parse : List Nat → Except String α)
    (v : ViewResultDetails) : Except WsError α :=
  match parse v.result with
  | .ok t => .ok t
  | .error e => .error (ErrorKind.dataConversion.custom (.msg e))

/-- `ViewResultDetails::borsh`: the stored raw bytes fed directly to the borsh
deserializer of the target type; no binary-to-text layer in between. -/
def ViewResultDetails.borsh {α : Type} (parse : List Nat → Except String α)
    (v : ViewResultDetails) : Except WsError α :=
  match parse v.result with
  | .ok t => .ok t
  | .error e => .error (ErrorKind.dataConversion.custom (.msg e))

/-- `CallResult` from `near_primitives::views`: raw view-call reply. -/
structure CallResult where
  result : List Nat
  logs : List String
deriving DecidableEq, Repr

/-- `From<CallResult> for ViewResultDetails`: one-to-one field copy. -/
def ViewResultDetails.from_call_result (r : CallResult) : ViewResultDetails :=
  { result := r.result, logs := r.logs }

/-! ## Concrete instances used as witnesses and counterexamples -/

/-- A transaction outcome that succeeded with a value. -/
def sampleOutcome : ExecutionOutcome :=
  { transaction_hash := ⟨[1]⟩
    block_hash := ⟨[2]⟩
    logs := ["log1"]
    receipt_ids := []
    gas_burnt := 1
    tokens_burnt := 0
    executor_id := ⟨"alice"⟩
    status := .successValue [7] }

/-- An outcome stuck at unknown status. -/
def unknownOutcome : ExecutionOutcome :=
  { transaction_hash := ⟨[3]⟩
    block_hash := ⟨[4]⟩
    logs := []
    receipt_ids := []
    gas_burnt := 2
    tokens_burnt := 0
    executor_id := ⟨"bob"⟩
    status := .unknown }

/-- A receipt outcome that failed with a structured error. -/
def failedReceiptOutcome : ExecutionOutcome :=
  { transaction_hash := ⟨[5]⟩
    block_hash := ⟨[6]⟩
    logs := ["receipt log"]
    receipt_ids := []
    gas_burnt := 4
    tokens_burnt := 1
    executor_id := ⟨"carol"⟩
    status := .failure ⟨"ReceiptBoom"⟩ }

/-- A transaction outcome that failed with a structured error. -/
def failedTxOutcome : ExecutionOutcome :=
  { transaction_hash := ⟨[7]⟩
    block_hash := ⟨[8]⟩
    logs := []
    receipt_ids := []
    gas_burnt := 2
    tokens_burnt := 0
    executor_id := ⟨"dave"⟩
    status := .failure ⟨"TxBoom"⟩ }

/-- A final result whose top-level status is the pending `NotStarted`. -/
def pendingFinalResult : ExecutionFinalResult :=
  { total_gas_burnt := 3
    status := .notStarted
    details := { transaction := sampleOutcome, receipts := [] } }

/-- A final result whose top-level status is the pending `Started`. -/
def pendingFinalResultTwo : ExecutionFinalResult :=
  { total_gas_burnt := 3
    status := .started
    details := { transaction := sampleOutcome, receipts := [] } }

/-- A final result whose top-level status is a structured failure. -/
def failedFinalResult : ExecutionFinalResult :=
  { total_gas_burnt := 5
    status := .failure ⟨"AccountDoesNotExist"⟩
    details := { transaction := sampleOutcome, receipts := [] } }

/-- An aggregate with one receipt stuck at unknown status. -/
def detailsWithUnknownReceipt : ExecutionDetails :=
  { transaction := sampleOutcome
    receipts := [unknownOutcome] }

/-- Top-level success whose transaction outcome and single receipt outcome
both carry a structured failure. -/
def mixedFinalResult : ExecutionFinalResult :=
  { total_gas_burnt := 6
    status := .successValue [1]
    details := { transaction := failedTxOutcome, receipts := [failedReceiptOutcome] } }

/-- Top-level success, clean transaction outcome, one failing receipt in the
middle of the receipt list. -/
def successWithFailedReceipt : ExecutionFinalResult :=
  { total_gas_burnt := 7
    status := .successValue [1]
    details :=
      { transaction := sampleOutcome
        receipts := [unknownOutcome, failedReceiptOutcome, unknownOutcome] } }

/-- Top-level success carrying the payload bytes `[1, 2, 3]`. -/
def successBytesFinalResult : ExecutionFinalResult :=
  { total_gas_burnt := 2
    status := .successValue [1, 2, 3]
    details := { transaction := sampleOutcome, receipts := [] } }

/-- Top-level success carrying an empty payload. -/
def emptySuccessFinalResult : ExecutionFinalResult :=
  { total_gas_burnt := 1
    status := .successValue []
    details := { transaction := sampleOutcome, receipts := [] } }

/-- A JSON deserializer stub that, like `serde_json` on an empty slice,
fails with an end-of-file message on empty input. -/
def eofOnEmpty (l : List Nat) : Except String String :=
  if l = [] then .error "EOF while parsing a value at line 1 column 0"
  else .ok "value"

/-- A deserializer stub that sums the bytes it is given. -/
def stubSumDecode (l : List Nat) : Except String Nat := .ok l.sum

/-- A deserializer stub that counts the bytes it is given. -/
def stubLenDecode (l : List Nat) : Except String Nat := .ok l.length

/-! ## Round-trip of the base64 engine -/

/-- Decoding a character of the alphabet recovers its six-bit value. -/
theorem b64CharVal_sextetChar_fin : ∀ s : Fin 64, b64CharVal (sextetChar s) = some s := by
  decide

/-- No character of the alphabet is the padding character. -/
theorem sextetChar_ne_pad_fin : ∀ s : Fin 64, sextetChar s ≠ '=' := by decide

/-- Decoding a character of the alphabet recovers its six-bit value. -/
theorem b64CharVal_sextetChar {s : Nat} (h : s < 64) :
    b64CharVal (sextetChar s) = some s :=
  b64CharVal_sextetChar_fin ⟨s, h⟩

/-- No character of the alphabet is the padding character. -/
theorem sextetChar_ne_pad {s : Nat} (h : s < 64) : sextetChar s ≠ '=' :=
  sextetChar_ne_pad_fin ⟨s, h⟩

/-- Base64 round-trip: decoding an encoded byte list recovers it exactly. -/
theorem b64_roundtrip : ∀ (P : List Nat), (∀ b ∈ P, b < 256) →
    b64DecodeChars (b64EncodeChars P) = .ok P := by
  intro P
  induction P using b64EncodeChars.induct with
  | case1 => intro _; rfl
  | case2 a =>
    intro h
    have ha : a < 256 := h a (by simp)
    have h1 : a / 4 < 64 := by omega
    have h2 : a % 4 * 16 < 64 := by omega
    simp only [b64EncodeChars, b64DecodeChars, b64CharVal_sextetChar h1,
      b64CharVal_sextetChar h2]
    norm_num
    omega
  | case3 a b =>
    intro h
    have ha : a < 256 := h a (by simp)
    have hb : b < 256 := h b (by simp)
    have h1 : a / 4 < 64 := by omega
    have h2 : a % 4 * 16 + b / 16 < 64 := by omega
    have h3 : b % 16 * 4 < 64 := by omega
    simp only [b64EncodeChars, b64DecodeChars, b64CharVal_sextetChar h1,
      b64CharVal_sextetChar h2, b64CharVal_sextetChar h3]
    rw [if_neg (by exact fun hc => sextetChar_ne_pad h3 hc.1)]
    norm_num
    constructor
    · omega
    · omega
  | case4 a b c rest ih =>
    intro h
    have ha : a < 256 := h a (by simp)
    have hb : b < 256 := h b (by simp)
    have hc : c < 256 := h c (by simp)
    have hrest : ∀ x ∈ rest, x < 256 := fun x hx => h x (by simp [hx])
    have h1 : a / 4 < 64 := by omega
    have h2 : a % 4 * 16 + b / 16 < 64 := by omega
    have h3 : b % 16 * 4 + c / 64 < 64 := by omega
    have h4 : c % 64 < 64 := by omega
    simp only [b64EncodeChars, b64DecodeChars, b64CharVal_sextetChar h1,
      b64CharVal_sextetChar h2, b64CharVal_sextetChar h3, b64CharVal_sextetChar h4]
    rw [if_neg (by exact fun hp => sextetChar_ne_pad h3 hp.1)]
    rw [if_neg (sextetChar_ne_pad h4)]
    rw [ih hrest]
    have e1 : a / 4 * 4 + (a % 4 * 16 + b / 16) / 16 = a := by omega
    have e2 : (a % 4 * 16 + b / 16) % 16 * 16 + (b % 16 * 4 + c / 64) / 4 = b := by omega
    have e3 : (b % 16 * 4 + c / 64) % 4 * 64 + c % 64 = c := by omega
    rw [e1, e2, e3]

/-- A `Value` built by base64-encoding a byte list decodes back to it. -/
theorem Value.raw_bytes_from_encode (P : List Nat) (h : ∀ b ∈ P, b < 256) :
    (Value.from_string (b64Encode P)).raw_bytes = .ok P := by
  show (match b64DecodeChars (b64EncodeChars P) with
        | .ok bytes => (.ok bytes : Except WsError (List Nat))
        | .error e => .error (ErrorKind.dataConversion.custom (.msg e))) = .ok P
  rw [b64_roundtrip P h]

/-- The base64 character encoding of a byte list is empty exactly when the
byte list is empty. -/
theorem b64EncodeChars_eq_nil_iff (P : List Nat) :
    b64EncodeChars P = [] ↔ P = [] := by
  match P with
  | [] => simp [b64EncodeChars]
  | [a] => simp [b64EncodeChars]
  | [a, b] => simp [b64EncodeChars]
  | a :: b :: c :: rest => simp [b64EncodeChars]

/-- Decoding a `Value` built from bytes `P` feeds `P` directly to the JSON
deserializer. -/
theorem Value.json_from_encode {α : Type} (parse : List Nat → Except String α)
    (P : List Nat) (hP : ∀ b ∈ P, b < 256) :
    (Value.from_string (b64Encode P)).json parse =
      match parse P with
      | .ok t => .ok t
      | .error e => .error (ErrorKind.dataConversion.custom (.msg e)) := by
  unfold Value.json
  rw [Value.raw_bytes_from_encode P hP]

/-- Decoding a `Value` built from bytes `P` feeds `P` directly to the borsh
deserializer. -/
theorem Value.borsh_from_encode {α : Type} (parse : List Nat → Except String α)
    (P : List Nat) (hP : ∀ b ∈ P, b < 256) :
    (Value.from_string (b64Encode P)).borsh parse =
      match parse P with
      | .ok t => .ok t
      | .error e => .error (ErrorKind.dataConversion.custom (.msg e)) := by
  unfold Value.borsh
  rw [Value.raw_bytes_from_encode P hP]

/-! ## The claims -/

/-- C1: for every `ExecutionFinalResult` whose top-level status is `Failure`,
every decode method (`json`, `borsh`, `raw_bytes`) returns an error carrying
the structured on-chain execution error; the result is independent of the
deserializers, so no decoding of the payload is attempted. -/
theorem C1_failure_decode {α β : Type} (r : ExecutionFinalResult)
    (e : TxExecutionError) (h : r.status = .failure e)
    (parse : List Nat → Except String α) (bparse : List Nat → Except String β) :
    r.json parse = .ret (.error (ErrorKind.execution.custom (.txe e))) ∧
    r.borsh bparse = .ret (.error (ErrorKind.execution.custom (.txe e))) ∧
    r.raw_bytes = .ret (.error (ErrorKind.execution.custom (.txe e))) := by
  refine ⟨?_, ?_, ?_⟩ <;>
    simp [ExecutionFinalResult.json, ExecutionFinalResult.borsh,
      ExecutionFinalResult.raw_bytes, ExecutionFinalResult.into_result, h,
      wsErrorOfFailure]

/-- C1 witness: the three decode methods of a concrete failed result surface
the structured execution error. -/
theorem C1_failure_decode_witness :
    failedFinalResult.json (fun _ => (.ok 0 : Except String Nat))
        = .ret (.error (ErrorKind.execution.custom (.txe ⟨"AccountDoesNotExist"⟩))) ∧
    failedFinalResult.borsh (fun _ => (.ok true : Except String Bool))
        = .ret (.error (ErrorKind.execution.custom (.txe ⟨"AccountDoesNotExist"⟩))) ∧
    failedFinalResult.raw_bytes
        = .ret (.error (ErrorKind.execution.custom (.txe ⟨"AccountDoesNotExist"⟩))) :=
  C1_failure_decode failedFinalResult ⟨"AccountDoesNotExist"⟩ rfl _ _

/-- C2 counterexample: on a concrete result with the non-terminal top-level
status `Started`, `into_result` hits the `unreachable` arm and panics instead
of returning a message error value. -/
theorem C2_counterexample : pendingFinalResultTwo.into_result = PanicOr.panicked := rfl

/-- C2 as amended: for a top-level status outside the two terminal variants,
`ExecutionFinalResult::into_result` panics (a process-fatal fault) and in
particular never reports success; the message-error reporting holds at the
per-outcome level, where `ExecutionOutcome::into_result` returns an
`Execution` message error for the unknown status. -/
theorem C2_pending_panics (r : ExecutionFinalResult)
    (h : r.status = .notStarted ∨ r.status = .started) :
    r.into_result = .panicked ∧ r.is_success = false ∧
    ∀ o : ExecutionOutcome, o.status = .unknown →
      o.into_result = .error (ErrorKind.execution.message "Execution pending or unknown") := by
  refine ⟨?_, ?_, ?_⟩
  · rcases h with h | h <;> simp [ExecutionFinalResult.into_result, h]
  · rcases h with h | h <;> simp [ExecutionFinalResult.is_success, h]
  · intro o ho
    simp [ExecutionOutcome.into_result, ho]

/-- C2 witness: the amended statement at the concrete pending result and the
concrete unknown-status outcome. -/
theorem C2_pending_panics_witness :
    pendingFinalResultTwo.into_result = .panicked ∧
    pendingFinalResultTwo.is_success = false ∧
    unknownOutcome.into_result
      = .error (ErrorKind.execution.message "Execution pending or unknown") := by
  have h := C2_pending_panics pendingFinalResultTwo (Or.inr rfl)
  exact ⟨h.1, h.2.1, h.2.2 unknownOutcome rfl⟩

/-- C3: a final result constructed by `from_view` has `total_gas_burnt` equal
to the transaction outcome gas plus the sum of the receipt outcome gas, in
unsigned 64-bit arithmetic. -/
theorem C3_from_view_total_gas (view : FinalExecutionOutcomeView) :
    (ExecutionFinalResult.from_view view).total_gas_burnt =
      (view.transaction_outcome.outcome.gas_burnt
        + ((view.receipts_outcome.map fun t => t.outcome.gas_burnt).sum)) % 2 ^ 64 := rfl

/-- C4: for a top-level success carrying payload `P`, classification stores
the base64 re-encoding of `P` and `raw_bytes` decodes it back to exactly `P`:
the encode performed at classification composed with the decode in
`raw_bytes` is the identity on byte sequences. -/
theorem C4_raw_bytes_roundtrip (r : ExecutionFinalResult) (P : List Nat)
    (hP : ∀ b ∈ P, b < 256) (h : r.status = .successValue P) :
    ∃ s : ExecutionSuccess, r.into_result = .ret (.ok s) ∧
      s.value = Value.from_string (b64Encode P) ∧
      s.raw_bytes = .ok P ∧
      r.raw_bytes = .ret (.ok P) := by
  have hir : r.into_result =
      .ret (.ok { total_gas_burnt := r.total_gas_burnt
                  value := Value.from_string (b64Encode P)
                  details := r.details }) := by
    simp [ExecutionFinalResult.into_result, h]
  refine ⟨_, hir, rfl, ?_, ?_⟩
  · exact Value.raw_bytes_from_encode P hP
  · simp [ExecutionFinalResult.raw_bytes, hir]
    exact Value.raw_bytes_from_encode P hP

/-- C4 witness: the round trip at the concrete payload `[1, 2, 3]`. -/
theorem C4_raw_bytes_roundtrip_witness :
    ∃ s : ExecutionSuccess, successBytesFinalResult.into_result = .ret (.ok s) ∧
      s.value = Value.from_string (b64Encode [1, 2, 3]) ∧
      s.raw_bytes = .ok [1, 2, 3] ∧
      successBytesFinalResult.raw_bytes = .ret (.ok [1, 2, 3]) :=
  C4_raw_bytes_roundtrip successBytesFinalResult [1, 2, 3] (by decide) rfl

/-- C5: `outcomes()` is the transaction outcome prepended to the receipt
outcomes in order, its length is one more than the receipt list, and its
first element is the transaction outcome. -/
theorem C5_outcomes_shape (d : ExecutionDetails) :
    d.outcomes = d.transaction :: d.receipt_outcomes ∧
    d.outcomes.length = 1 + d.receipt_outcomes.length ∧
    d.outcomes.head? = some d.transaction := by
  refine ⟨rfl, ?_, rfl⟩
  show (d.transaction :: d.receipts).length = 1 + d.receipts.length
  simp [Nat.add_comm]

/-- C6 counterexample: an aggregate with one unknown-status receipt, for which
`is_failure()` is true, yet neither `failures()` nor `receipt_failures()`
contains it — so they are not the `is_failure()`-filterings the claim states. -/
theorem C6_counterexample :
    unknownOutcome.is_failure = true ∧
    ¬ ((detailsWithUnknownReceipt.failures
          = detailsWithUnknownReceipt.outcomes.filter fun o => o.is_failure) ∧
       (detailsWithUnknownReceipt.receipt_failures
          = detailsWithUnknownReceipt.receipt_outcomes.filter fun o => o.is_failure)) := by
  refine ⟨rfl, ?_⟩
  decide

/-- C6 as amended: `failures()` and `receipt_failures()` filter `outcomes()`
and `receipt_outcomes()` by the failure-with-error status variant only
(outcomes with unknown status are excluded even though `is_failure()` holds
for them), preserving order, with a failing transaction outcome first. -/
theorem C6_failures_filter (d : ExecutionDetails) :
    d.failures = d.outcomes.filter (fun o => statusIsFailureVariant o.status) ∧
    d.receipt_failures
      = d.receipt_outcomes.filter (fun o => statusIsFailureVariant o.status) := by
  constructor
  · show _ = List.filter _ (d.transaction :: d.receipts)
    rw [List.filter_cons]
    cases hf : statusIsFailureVariant d.transaction.status <;>
      simp [ExecutionDetails.failures, ExecutionDetails.receipt_failures,
        ExecutionDetails.receipt_outcomes, hf]
  · rfl

/-- C7: on a top-level success, the JSON decode of an empty payload fails with
the distinguished empty-value error whenever the deserializer rejects the
empty input, and the distinguished error is produced exactly when the decode
of the stored value errs with `DataConversion` kind and the stored payload is
empty; otherwise the original decode outcome passes through. -/
theorem C7_empty_json_distinguished {α : Type} (parse : List Nat → Except String α)
    (r : ExecutionFinalResult) (P : List Nat) (h : r.status = .successValue P) :
    (P = [] → ∀ msg, parse [] = .error msg →
      r.json parse = .ret (.error (ErrorKind.dataConversion.custom
        (.msg ExecutionFinalResult.emptyJsonMsg)))) ∧
    (∀ err, (Value.from_string (b64Encode P)).json parse = .error err →
      (err.kind = ErrorKind.dataConversion ∧ P = [] →
        r.json parse = .ret (.error (ErrorKind.dataConversion.custom
          (.msg ExecutionFinalResult.emptyJsonMsg)))) ∧
      (¬ (err.kind = ErrorKind.dataConversion ∧ P = []) →
        r.json parse = .ret (.error err))) ∧
    (∀ t, (Value.from_string (b64Encode P)).json parse = .ok t →
      r.json parse = .ret (.ok t)) := by
  have hir : r.into_result = .ret (.ok
      { total_gas_burnt := r.total_gas_burnt
        value := Value.from_string (b64Encode P)
        details := r.details }) := by
    simp [ExecutionFinalResult.into_result, h]
  have hunf : r.json parse =
      (match (Value.from_string (b64Encode P)).json parse with
       | .error err =>
          if err.kind = ErrorKind.dataConversion ∧ b64EncodeChars P = [] then
            .ret (.error (ErrorKind.dataConversion.custom
              (.msg ExecutionFinalResult.emptyJsonMsg)))
          else .ret (.error err)
       | .ok t => .ret (.ok t)) := by
    simp only [ExecutionFinalResult.json, hir]
    rfl
  refine ⟨?_, ?_, ?_⟩
  · intro hPnil msg hmsg
    subst hPnil
    have hv : (Value.from_string (b64Encode [])).json parse
        = .error (ErrorKind.dataConversion.custom (.msg msg)) := by
      rw [Value.json_from_encode parse [] (by simp), hmsg]
    rw [hunf, hv]
    rfl
  · intro err herr
    constructor
    · rintro ⟨hk, hPnil⟩
      subst hPnil
      rw [hunf, herr]
      show (if err.kind = ErrorKind.dataConversion ∧ b64EncodeChars [] = [] then
              PanicOr.ret (Except.error (ErrorKind.dataConversion.custom
                (ErrorDetail.msg ExecutionFinalResult.emptyJsonMsg)))
            else PanicOr.ret (Except.error err))
          = PanicOr.ret (Except.error (ErrorKind.dataConversion.custom
              (ErrorDetail.msg ExecutionFinalResult.emptyJsonMsg)))
      rw [if_pos ⟨hk, rfl⟩]
    · intro hnk
      rw [hunf, herr]
      show (if err.kind = ErrorKind.dataConversion ∧ b64EncodeChars P = [] then
              PanicOr.ret (Except.error (ErrorKind.dataConversion.custom
                (ErrorDetail.msg ExecutionFinalResult.emptyJsonMsg)))
            else PanicOr.ret (Except.error err))
          = PanicOr.ret (Except.error err)
      rw [if_neg ?_]
      rintro ⟨hk, he⟩
      exact hnk ⟨hk, (b64EncodeChars_eq_nil_iff P).1 he⟩
  · intro t ht
    rw [hunf, ht]

/-- C7 witness: the distinguished error at the concrete empty-payload result
with an end-of-file deserializer, and its difference from the generic parse
error the deserializer produced. -/
theorem C7_empty_json_distinguished_witness :
    emptySuccessFinalResult.json eofOnEmpty
      = .ret (.error (ErrorKind.dataConversion.custom
          (.msg ExecutionFinalResult.emptyJsonMsg))) ∧
    ErrorKind.dataConversion.custom (.msg ExecutionFinalResult.emptyJsonMsg)
      ≠ ErrorKind.dataConversion.custom
          (.msg "EOF while parsing a value at line 1 column 0") :=
  ⟨(C7_empty_json_distinguished eofOnEmpty emptySuccessFinalResult [] rfl).1 rfl
      "EOF while parsing a value at line 1 column 0" rfl,
   by decide⟩

/-- C8 counterexample: a result whose top-level status is success-with-bytes
and whose aggregate contains a failing receipt, but whose transaction outcome
also failed — `failures()` is then not exactly the failing receipt outcomes. -/
theorem C8_counterexample :
    mixedFinalResult.is_success = true ∧
    failedReceiptOutcome ∈ mixedFinalResult.receipt_outcomes ∧
    failedReceiptOutcome.is_failure = true ∧
    mixedFinalResult.failures
      ≠ mixedFinalResult.receipt_outcomes.filter (fun o => o.is_failure) := by
  refine ⟨rfl, by decide, rfl, by decide⟩

/-- C8 as amended: classification depends on the top-level status alone — a
success-with-bytes status gives `is_success()` and an `Ok` from
`into_result()` regardless of child outcome statuses; `failures()` is exactly
the failing receipt outcomes when the transaction outcome itself is not a
failure, and prepends the transaction outcome when it is. -/
theorem C8_top_level_classification (r : ExecutionFinalResult) (v : List Nat)
    (h : r.status = .successValue v) :
    r.is_success = true ∧
    (∃ s, r.into_result = .ret (.ok s)) ∧
    (statusIsFailureVariant r.details.transaction.status = false →
      r.failures = r.receipt_failures) ∧
    (statusIsFailureVariant r.details.transaction.status = true →
      r.failures = r.details.transaction :: r.receipt_failures) := by
  refine ⟨?_, ?_, ?_, ?_⟩
  · simp [ExecutionFinalResult.is_success, h]
  · exact ⟨{ total_gas_burnt := r.total_gas_burnt
             value := Value.from_string (b64Encode v)
             details := r.details },
      by simp [ExecutionFinalResult.into_result, h]⟩
  · intro hf
    simp [ExecutionFinalResult.failures, ExecutionFinalResult.receipt_failures,
      ExecutionDetails.failures, hf]
  · intro hf
    simp [ExecutionFinalResult.failures, ExecutionFinalResult.receipt_failures,
      ExecutionDetails.failures, hf]

/-- C8 witness: the amended statement at a concrete success-classified result
whose only Failure-status outcome is one receipt in the middle of the list. -/
theorem C8_top_level_classification_witness :
    successWithFailedReceipt.is_success = true ∧
    (∃ s, successWithFailedReceipt.into_result = .ret (.ok s)) ∧
    successWithFailedReceipt.failures = successWithFailedReceipt.receipt_failures ∧
    successWithFailedReceipt.failures = [failedReceiptOutcome] := by
  have h := C8_top_level_classification successWithFailedReceipt [1] rfl
  exact ⟨h.1, h.2.1, h.2.2.1 rfl, by decide⟩

/-- C9: the view-call result exposes its raw bytes directly and its JSON and
borsh decodes agree with the Success-value decode pipeline applied to the
same payload — identical decode methods, with no binary-to-text re-encoding
layer in between. -/
theorem C9_view_decode {α β : Type} (P : List Nat) (hP : ∀ b ∈ P, b < 256)
    (lg : List String) (parse : List Nat → Except String α)
    (bparse : List Nat → Except String β) :
    (ViewResultDetails.mk P lg).result = P ∧
    (ViewResultDetails.mk P lg).json parse
      = (Value.from_string (b64Encode P)).json parse ∧
    (ViewResultDetails.mk P lg).borsh bparse
      = (Value.from_string (b64Encode P)).borsh bparse := by
  refine ⟨rfl, ?_, ?_⟩
  · rw [Value.json_from_encode parse P hP]
    rfl
  · rw [Value.borsh_from_encode bparse P hP]
    rfl

/-- C9 witness: the agreement at the concrete payload `[1, 2, 3]` with
concrete deserializer stubs. -/
theorem C9_view_decode_witness :
    (ViewResultDetails.mk [1, 2, 3] ["vlog"]).result = [1, 2, 3] ∧
    (ViewResultDetails.mk [1, 2, 3] ["vlog"]).json stubSumDecode
      = (Value.from_string (b64Encode [1, 2, 3])).json stubSumDecode ∧
    (ViewResultDetails.mk [1, 2, 3] ["vlog"]).borsh stubLenDecode
      = (Value.from_string (b64Encode [1, 2, 3])).borsh stubLenDecode :=
  C9_view_decode [1, 2, 3] (by decide) ["vlog"] stubSumDecode stubLenDecode

/-- C10: `is_success()` and `is_failure()` of a final result are never both
true, and for the non-terminal statuses both are false — a pending result is
classified as neither success nor failure by these predicates. -/
theorem C10_classification_exclusive (r : ExecutionFinalResult) :
    (r.is_success && r.is_failure) = false ∧
    ((r.status = .notStarted ∨ r.status = .started) →
      r.is_success = false ∧ r.is_failure = false) := by
  cases hs : r.status <;>
    simp [ExecutionFinalResult.is_success, ExecutionFinalResult.is_failure, hs]

/-- C10 witness: both predicates are false at a concrete pending result. -/
theorem C10_classification_exclusive_witness :
    (pendingFinalResult.is_success && pendingFinalResult.is_failure) = false ∧
    pendingFinalResult.is_success = false ∧ pendingFinalResult.is_failure = false :=
  ⟨(C10_classification_exclusive pendingFinalResult).1,
   (C10_classification_exclusive pendingFinalResult).2 (Or.inl rfl)⟩

end SandboxApi
